import Mathlib

/-!
Verification of the dimension-scaling stylesheet library
(react-native-auto-stylesheet).

The repository ships a thin transformation over the host styling API:
a property-classification table, three scale factors derived from device
and guideline dimensions, and a style transformer that multiplies the
numeric values of classified properties by the matching factor and rounds
to the nearest device pixel.

Numbers are modelled as exact rationals extended with the host language's
special values (positive/negative infinity and NaN), so that division by a
zero guideline dimension behaves as in the host runtime.
-/

/-- A host-language number: a finite rational, a signed infinity
(`inf true` is negative infinity), or NaN.  Finite arithmetic is exact
rational arithmetic; the special values follow the host semantics. -/
inductive JSNum where
  | fin : ℚ → JSNum
  | inf : Bool → JSNum
  | nan : JSNum
deriving DecidableEq

/-- Host multiplication on `JSNum`. -/
def jsMul : JSNum → JSNum → JSNum
  | .nan, _ => .nan
  | _, .nan => .nan
  | .fin a, .fin b => .fin (a * b)
  | .fin a, .inf s => if a = 0 then .nan else .inf (xor s (decide (a < 0)))
  | .inf s, .fin a => if a = 0 then .nan else .inf (xor s (decide (a < 0)))
  | .inf s, .inf t => .inf (xor s t)

/-- Host addition on `JSNum`. -/
def jsAdd : JSNum → JSNum → JSNum
  | .nan, _ => .nan
  | _, .nan => .nan
  | .fin a, .fin b => .fin (a + b)
  | .fin _, .inf s => .inf s
  | .inf s, .fin _ => .inf s
  | .inf s, .inf t => if s = t then .inf s else .nan

/-- Host division on `JSNum`: division by zero yields a signed infinity
(or NaN for `0 / 0`), matching the host runtime. -/
def jsDiv : JSNum → JSNum → JSNum
  | .nan, _ => .nan
  | _, .nan => .nan
  | .inf _, .inf _ => .nan
  | .inf s, .fin b => .inf (xor s (decide (b < 0)))
  | .fin _, .inf _ => .fin 0
  | .fin a, .fin b =>
      if b = 0 then (if a = 0 then .nan else .inf (decide (a < 0)))
      else .fin (a / b)

/-- Host division of two plain rationals, yielding a `JSNum` so that a
zero denominator produces the host's infinity/NaN. -/
def jsDivQ (a b : ℚ) : JSNum :=
  if b = 0 then (if a = 0 then .nan else .inf (decide (a < 0)))
  else .fin (a / b)

/-- The floor of a rational as an integer, written computably (Euclidean
division of the numerator by the positive denominator). -/
def ratFloor (q : ℚ) : ℤ :=
  q.num / q.den

/-- Host rounding to the nearest integer (round half toward positive
infinity, as the host's Math.round does); infinities and NaN are fixed. -/
def jsRound : JSNum → JSNum
  | .fin q => .fin ((ratFloor (q + 1 / 2) : ℤ) : ℚ)
  | .inf s => .inf s
  | .nan => .nan

/-- Modelled from the spec: the host pixel-rounding utility
(PixelRatio.roundToNearestPixel), absent from the sources, rounds a layout
size to the nearest value representable at the device's pixel ratio:
`round(size * ratio) / ratio`. -/
def roundToNearestPixel (ratio : ℚ) (v : JSNum) : JSNum :=
  jsDiv (jsRound (jsMul v (.fin ratio))) (.fin ratio)

/-- A style value: a number, or a non-numeric value (string, boolean,
nested array or nested object).  Only top-level numbers are ever scaled. -/
inductive JSVal where
  | num : JSNum → JSVal
  | str : String → JSVal
  | bool : Bool → JSVal
  | arr : List JSVal → JSVal
  | obj : List (String × JSVal) → JSVal

/-- Whether a style value is numeric. -/
def JSVal.isNum : JSVal → Bool
  | .num _ => true
  | _ => false

/-- A flat style object: an ordered mapping from property names to values. -/
abbrev StyleObject := List (String × JSVal)

/-- A mapping from style names to style objects, as passed to `create`. -/
abbrev NamedStyles := List (String × StyleObject)

/-- The guideline (reference design) dimensions, the process-wide mutable
configuration of the library. -/
structure Guideline where
  width : ℚ
  height : ℚ
deriving DecidableEq

/-- The device dimensions, a read-only snapshot from the host environment. -/
structure DeviceDimensions where
  width : ℚ
  height : ℚ
deriving DecidableEq

/-- Modelled from the spec: the default guideline dimensions at process
start are 375 x 667 (the logical resolution of an iPhone 6-8). -/
def defaultGuideline : Guideline := { width := 375, height := 667 }

/-- Modelled from the spec: `setGuidelineBaseDimensions(newWidth?,
newHeight?)`; each argument is independently optional, an omitted argument
retains the previous value, and no validation of sign or magnitude is
performed. -/
def setGuidelineBaseDimensions (newWidth newHeight : Option ℚ) (g : Guideline) :
    Guideline :=
  { width := newWidth.getD g.width, height := newHeight.getD g.height }

/-- The three derived scale factors. -/
structure ScaleFactors where
  horizontal : JSNum
  vertical : JSNum
  average : JSNum
deriving DecidableEq

/-- Modelled from the spec: `horizontal = deviceWidth / guidelineWidth`,
`vertical = deviceHeight / guidelineHeight`,
`average = (horizontal + vertical) / 2`, recomputed on every call. -/
def computeScaleFactors (g : Guideline) (d : DeviceDimensions) : ScaleFactors :=
  let h := jsDivQ d.width g.width
  let v := jsDivQ d.height g.height
  { horizontal := h, vertical := v, average := jsDiv (jsAdd h v) (.fin 2) }

/-- The scaling axes a property can be classified to. -/
inductive PropertyAxis where
  | horizontal
  | vertical
  | average
  | unscaled
deriving DecidableEq

/-- Modelled from the spec: the width-dependent properties. -/
def widthDependentProps : List String :=
  ["width", "marginLeft", "marginRight", "marginHorizontal", "paddingLeft",
   "paddingRight", "paddingHorizontal", "borderTopWidth", "borderBottomWidth",
   "left", "right"]

/-- Modelled from the spec: the height-dependent properties. -/
def heightDependentProps : List String :=
  ["height", "marginTop", "marginBottom", "marginVertical", "paddingTop",
   "paddingBottom", "paddingVertical", "borderLeftWidth", "borderRightWidth",
   "top", "bottom"]

/-- Modelled from the spec: the properties scaled by the average of the
two axis ratios. -/
def averageDependentProps : List String :=
  ["fontSize", "margin", "padding", "borderWidth"]

/-- Modelled from the spec: the static property-to-axis classification
table; any name not in the three fixed lists is unscaled. -/
def axisFor (k : String) : PropertyAxis :=
  if k ∈ widthDependentProps then .horizontal
  else if k ∈ heightDependentProps then .vertical
  else if k ∈ averageDependentProps then .average
  else .unscaled

/-- Scale a bare number by one factor and round via the host utility `r`. -/
def scaleValue (r : JSNum → JSNum) (factor : JSNum) (v : JSNum) : JSNum :=
  r (jsMul v factor)

/-- Modelled from the spec: `scaleHorizontally(n)` applies the horizontal
factor and pixel rounding to a bare number. -/
def scaleHorizontally (r : JSNum → JSNum) (g : Guideline) (d : DeviceDimensions)
    (v : JSNum) : JSNum :=
  scaleValue r (computeScaleFactors g d).horizontal v

/-- Modelled from the spec: `scaleVertically(n)` applies the vertical
factor and pixel rounding to a bare number. -/
def scaleVertically (r : JSNum → JSNum) (g : Guideline) (d : DeviceDimensions)
    (v : JSNum) : JSNum :=
  scaleValue r (computeScaleFactors g d).vertical v

/-- Modelled from the spec: `scaleWithAverageRatio(n)` applies the average
factor and pixel rounding to a bare number. -/
def scaleWithAverageFactor (r : JSNum → JSNum) (g : Guideline)
    (d : DeviceDimensions) (v : JSNum) : JSNum :=
  scaleValue r (computeScaleFactors g d).average v

/-- Modelled from the spec: transform one style entry.  A non-numeric
value, or a key classified unscaled, is copied unchanged; otherwise the
value is multiplied by the matching factor and pixel-rounded. -/
def scaleEntry (r : JSNum → JSNum) (f : ScaleFactors) (k : String)
    (v : JSVal) : JSVal :=
  match v with
  | .num n =>
      match axisFor k with
      | .horizontal => .num (scaleValue r f.horizontal n)
      | .vertical => .num (scaleValue r f.vertical n)
      | .average => .num (scaleValue r f.average n)
      | .unscaled => v
  | _ => v

/-- Modelled from the spec: `scale(styleObject)` walks the flat style
object entrywise, consulting a freshly computed factor triple. -/
def scaleStyle (r : JSNum → JSNum) (g : Guideline) (d : DeviceDimensions)
    (style : StyleObject) : StyleObject :=
  style.map (fun e => (e.1, scaleEntry r (computeScaleFactors g d) e.1 e.2))

/-- Modelled from the spec: `create(namedStyles)` scales every style
object and forwards the result to the host registration step. -/
def create {α : Type} (hostCreate : NamedStyles → α) (r : JSNum → JSNum)
    (g : Guideline) (d : DeviceDimensions) (styles : NamedStyles) : α :=
  hostCreate (styles.map (fun e => (e.1, scaleStyle r g d e.2)))

/-- Modelled from the spec: `createUnscaled(namedStyles)` forwards
directly to the host registration step with no transformation. -/
def createUnscaled {α : Type} (hostCreate : NamedStyles → α)
    (styles : NamedStyles) : α :=
  hostCreate styles

/-- The stateful view of a scaling call: the guideline configuration is
the process-wide state; the transformer reads it and leaves it unchanged,
recomputing factors fresh on every call. -/
def scaleStyleRun (r : JSNum → JSNum) (d : DeviceDimensions)
    (style : StyleObject) (g : Guideline) : StyleObject × Guideline :=
  (scaleStyle r g d style, g)

section Helpers

lemma ratFloor_eq_floor (q : ℚ) : ratFloor q = ⌊q⌋ := by
  rw [ratFloor, Rat.floor_def]

lemma axisFor_eq_horizontal_iff (k : String) :
    axisFor k = .horizontal ↔ k ∈ widthDependentProps := by
  unfold axisFor
  by_cases h1 : k ∈ widthDependentProps
  · simp [h1]
  · simp only [h1, if_false, iff_false]
    by_cases h2 : k ∈ heightDependentProps <;>
      by_cases h3 : k ∈ averageDependentProps <;> simp [h2, h3]

lemma axisFor_eq_vertical_iff (k : String) :
    axisFor k = .vertical ↔ k ∈ heightDependentProps := by
  unfold axisFor
  by_cases h1 : k ∈ widthDependentProps
  · have hw : k ∉ heightDependentProps := by
      fin_cases h1 <;> decide
    simp [h1, hw]
  · by_cases h2 : k ∈ heightDependentProps <;>
      by_cases h3 : k ∈ averageDependentProps <;> simp [h1, h2, h3]

lemma axisFor_eq_average_iff (k : String) :
    axisFor k = .average ↔ k ∈ averageDependentProps := by
  unfold axisFor
  by_cases h1 : k ∈ widthDependentProps
  · have hw : k ∉ averageDependentProps := by
      fin_cases h1 <;> decide
    simp [h1, hw]
  · by_cases h2 : k ∈ heightDependentProps
    · have hw : k ∉ averageDependentProps := by
        fin_cases h2 <;> decide
      simp [h1, h2, hw]
    · by_cases h3 : k ∈ averageDependentProps <;> simp [h1, h2, h3]

lemma axisFor_eq_unscaled (k : String) (h1 : k ∉ widthDependentProps)
    (h2 : k ∉ heightDependentProps) (h3 : k ∉ averageDependentProps) :
    axisFor k = .unscaled := by
  unfold axisFor
  simp [h1, h2, h3]

end Helpers

/-- C1: for every numeric style value v, with guideline dimensions
(gw, gh) and device dimensions (dw, dh), a width-classified property (and
scaleHorizontally) yields round(v * dw/gw); a height-classified property
(and scaleVertically) yields round(v * dh/gh); an average-classified
property (and the average-factor primitive) yields
round(v * ((dw/gw + dh/gh)/2)), where round is the host pixel-rounding
function r. -/
theorem scaling_formulas (r : JSNum → JSNum) (gw gh dw dh : ℚ) (v : JSNum)
    (hgw : 0 < gw) (hgh : 0 < gh) :
    (scaleHorizontally r ⟨gw, gh⟩ ⟨dw, dh⟩ v = r (jsMul v (.fin (dw / gw)))) ∧
    (scaleVertically r ⟨gw, gh⟩ ⟨dw, dh⟩ v = r (jsMul v (.fin (dh / gh)))) ∧
    (scaleWithAverageFactor r ⟨gw, gh⟩ ⟨dw, dh⟩ v =
      r (jsMul v (.fin ((dw / gw + dh / gh) / 2)))) ∧
    (∀ k, axisFor k = .horizontal →
      scaleEntry r (computeScaleFactors ⟨gw, gh⟩ ⟨dw, dh⟩) k (.num v) =
        .num (r (jsMul v (.fin (dw / gw))))) ∧
    (∀ k, axisFor k = .vertical →
      scaleEntry r (computeScaleFactors ⟨gw, gh⟩ ⟨dw, dh⟩) k (.num v) =
        .num (r (jsMul v (.fin (dh / gh))))) ∧
    (∀ k, axisFor k = .average →
      scaleEntry r (computeScaleFactors ⟨gw, gh⟩ ⟨dw, dh⟩) k (.num v) =
        .num (r (jsMul v (.fin ((dw / gw + dh / gh) / 2))))) := by
  have hgw0 : gw ≠ 0 := ne_of_gt hgw
  have hgh0 : gh ≠ 0 := ne_of_gt hgh
  have hfac : computeScaleFactors ⟨gw, gh⟩ ⟨dw, dh⟩ =
      ⟨.fin (dw / gw), .fin (dh / gh), .fin ((dw / gw + dh / gh) / 2)⟩ := by
    simp only [computeScaleFactors, jsDivQ, hgw0, hgh0, if_false, jsAdd, jsDiv]
    norm_num
  refine ⟨?_, ?_, ?_, ?_, ?_, ?_⟩
  · simp [scaleHorizontally, scaleValue, hfac]
  · simp [scaleVertically, scaleValue, hfac]
  · simp [scaleWithAverageFactor, scaleValue, hfac]
  · intro k hk; simp [scaleEntry, hk, hfac, scaleValue]
  · intro k hk; simp [scaleEntry, hk, hfac, scaleValue]
  · intro k hk; simp [scaleEntry, hk, hfac, scaleValue]

theorem scaling_formulas_witness :
    scaleEntry (roundToNearestPixel 2)
      (computeScaleFactors ⟨375, 667⟩ ⟨320, 568⟩) "width" (.num (.fin 100)) =
      .num (roundToNearestPixel 2 (jsMul (.fin 100) (.fin (320 / 375)))) :=
  (scaling_formulas (roundToNearestPixel 2) 375 667 320 568 (.fin 100)
    (by norm_num) (by norm_num)).2.2.2.1 "width" (by decide)

/-- C2: the property-to-axis classification is a fixed table with exactly
the stated membership; every other property name is classified unscaled. -/
theorem classification_table_membership :
    (∀ k, axisFor k = .horizontal ↔
      k ∈ ["width", "marginLeft", "marginRight", "marginHorizontal",
           "paddingLeft", "paddingRight", "paddingHorizontal",
           "borderTopWidth", "borderBottomWidth", "left", "right"]) ∧
    (∀ k, axisFor k = .vertical ↔
      k ∈ ["height", "marginTop", "marginBottom", "marginVertical",
           "paddingTop", "paddingBottom", "paddingVertical",
           "borderLeftWidth", "borderRightWidth", "top", "bottom"]) ∧
    (∀ k, axisFor k = .average ↔
      k ∈ ["fontSize", "margin", "padding", "borderWidth"]) ∧
    (∀ k, k ∉ widthDependentProps → k ∉ heightDependentProps →
      k ∉ averageDependentProps → axisFor k = .unscaled) :=
  ⟨fun k => axisFor_eq_horizontal_iff k, fun k => axisFor_eq_vertical_iff k,
   fun k => axisFor_eq_average_iff k,
   fun k h1 h2 h3 => axisFor_eq_unscaled k h1 h2 h3⟩

theorem classification_table_membership_witness :
    axisFor "opacity" = .unscaled ∧ axisFor "fontSize" = .average :=
  ⟨classification_table_membership.2.2.2 "opacity" (by decide) (by decide)
      (by decide),
   (classification_table_membership.2.2.1 "fontSize").2 (by decide)⟩

/-- C10: before any call to setGuidelineBaseDimensions the guideline
dimensions default to (375, 667), so scaleHorizontally(n) initially equals
round(n * deviceWidth / 375) and scaleVertically(n) initially equals
round(n * deviceHeight / 667). -/
theorem default_guideline_initial_scaling (r : JSNum → JSNum) (dw dh n : ℚ) :
    defaultGuideline = ⟨375, 667⟩ ∧
    scaleHorizontally r defaultGuideline ⟨dw, dh⟩ (.fin n) =
      r (.fin (n * dw / 375)) ∧
    scaleVertically r defaultGuideline ⟨dw, dh⟩ (.fin n) =
      r (.fin (n * dh / 667)) := by
  have h1 : (375 : ℚ) ≠ 0 := by norm_num
  have h2 : (667 : ℚ) ≠ 0 := by norm_num
  refine ⟨rfl, ?_, ?_⟩
  · simp only [scaleHorizontally, scaleValue, computeScaleFactors,
      defaultGuideline, jsDivQ, h1, if_false, jsMul, mul_div_assoc]
  · simp only [scaleVertically, scaleValue, computeScaleFactors,
      defaultGuideline, jsDivQ, h2, if_false, jsMul, mul_div_assoc]

lemma scaleEntry_eq_self (r : JSNum → JSNum) (f : ScaleFactors) (k : String)
    (v : JSVal) (h : v.isNum = false ∨ axisFor k = PropertyAxis.unscaled) :
    scaleEntry r f k v = v := by
  cases v with
  | num n =>
      rcases h with h | h
      · simp [JSVal.isNum] at h
      · simp [scaleEntry, h]
  | str s => rfl
  | bool b => rfl
  | arr l => rfl
  | obj l => rfl

/-- C3: the output of scale has exactly the same keys as the input in the
same order, every entry whose value is non-numeric or whose key is
classified unscaled is copied unchanged, and nested object or array values
are copied as-is with no recursive scaling. -/
theorem scale_preserves_shape (r : JSNum → JSNum) (g : Guideline)
    (d : DeviceDimensions) (style : StyleObject) :
    ((scaleStyle r g d style).map Prod.fst = style.map Prod.fst) ∧
    ((scaleStyle r g d style).length = style.length) ∧
    (∀ i (h1 : i < style.length) (h2 : i < (scaleStyle r g d style).length),
      ((style.get ⟨i, h1⟩).2.isNum = false ∨
        axisFor (style.get ⟨i, h1⟩).1 = .unscaled) →
      (scaleStyle r g d style).get ⟨i, h2⟩ = style.get ⟨i, h1⟩) := by
  refine ⟨?_, ?_, ?_⟩
  · simp [scaleStyle]
  · simp [scaleStyle]
  · intro i h1 h2 hcase
    have hmap : (scaleStyle r g d style).get ⟨i, h2⟩ =
        ((style.get ⟨i, h1⟩).1,
          scaleEntry r (computeScaleFactors g d) (style.get ⟨i, h1⟩).1
            (style.get ⟨i, h1⟩).2) := by
      simp [scaleStyle, List.get_eq_getElem]
    rw [hmap, scaleEntry_eq_self r _ _ _ hcase]

theorem scale_preserves_shape_witness :
    (scaleStyle id defaultGuideline ⟨320, 568⟩
        [("transform", JSVal.arr [JSVal.obj [("translateX",
          JSVal.num (.fin 10))]])]).get ⟨0, by simp [scaleStyle]⟩ =
      ("transform", JSVal.arr [JSVal.obj [("translateX",
        JSVal.num (.fin 10))]]) := by
  have h := (scale_preserves_shape id defaultGuideline ⟨320, 568⟩
      [("transform", JSVal.arr [JSVal.obj [("translateX",
        JSVal.num (.fin 10))]])]).2.2 0 (by simp) (by simp [scaleStyle])
      (Or.inl rfl)
  simpa using h

/-- C5: createUnscaled applied to any named-styles mapping returns the
same result as calling the host styling API's native creation entry point
directly on the same input, with no transformation applied. -/
theorem createUnscaled_eq_host (α : Type) (hostCreate : NamedStyles → α)
    (styles : NamedStyles) :
    createUnscaled hostCreate styles = hostCreate styles := rfl

/-- C8: scaling is deterministic in the current dimension state: two runs
of the style transformation with unchanged guideline and device dimensions
produce identical results, and neither run mutates the guideline state. -/
theorem scaling_deterministic (r : JSNum → JSNum) (d : DeviceDimensions)
    (style : StyleObject) (g : Guideline) :
    ((scaleStyleRun r d style ((scaleStyleRun r d style g).2)).1 =
      (scaleStyleRun r d style g).1) ∧
    ((scaleStyleRun r d style g).2 = g) :=
  ⟨rfl, rfl⟩

/-- C6: in setGuidelineBaseDimensions each argument is independently
optional and an omitted argument leaves the corresponding guideline
dimension at its previous value; zero or negative arguments are accepted
without failure and later produce degenerate scale factors. -/
theorem setGuideline_optional_no_validation (g : Guideline) (w h dw dh : ℚ) :
    (setGuidelineBaseDimensions none none g = g) ∧
    (setGuidelineBaseDimensions (some w) none g = ⟨w, g.height⟩) ∧
    (setGuidelineBaseDimensions none (some h) g = ⟨g.width, h⟩) ∧
    (setGuidelineBaseDimensions (some w) (some h) g = ⟨w, h⟩) ∧
    (0 < dw →
      (computeScaleFactors (setGuidelineBaseDimensions (some 0) (some h) g)
        ⟨dw, dh⟩).horizontal = .inf false) ∧
    (w < 0 → 0 < dw →
      (computeScaleFactors (setGuidelineBaseDimensions (some w) (some h) g)
          ⟨dw, dh⟩).horizontal = .fin (dw / w) ∧ dw / w < 0) := by
  refine ⟨rfl, rfl, rfl, rfl, ?_, ?_⟩
  · intro hdw
    have h1 : dw ≠ 0 := ne_of_gt hdw
    have h2 : ¬ dw < 0 := not_lt.mpr (le_of_lt hdw)
    simp [computeScaleFactors, setGuidelineBaseDimensions, jsDivQ, h1, h2]
  · intro hw hdw
    have h1 : w ≠ 0 := ne_of_lt hw
    exact ⟨by simp [computeScaleFactors, setGuidelineBaseDimensions, jsDivQ, h1],
      div_neg_of_pos_of_neg hdw hw⟩

theorem setGuideline_optional_no_validation_witness :
    (computeScaleFactors
        (setGuidelineBaseDimensions (some (-5)) (some 667) defaultGuideline)
        ⟨320, 568⟩).horizontal = .fin (320 / (-5)) ∧ (320 : ℚ) / (-5) < 0 :=
  (setGuideline_optional_no_validation defaultGuideline (-5) 667 320
    568).2.2.2.2.2 (by norm_num) (by norm_num)

/-- C7: no scaling operation fails on malformed input: a zero guideline
dimension yields an infinite or NaN factor that is propagated silently
into the scaled output, a zero device dimension yields a zero factor, and
non-numeric values on recognized-axis properties are copied unchanged. -/
theorem degenerate_inputs_no_failure (r : JSNum → JSNum) (gh dw dh ratio v : ℚ) :
    (0 < dw → 0 < v → 0 < ratio →
      scaleEntry (roundToNearestPixel ratio)
        (computeScaleFactors ⟨0, gh⟩ ⟨dw, dh⟩) "width" (.num (.fin v)) =
        .num (.inf false)) ∧
    (scaleEntry (roundToNearestPixel ratio)
      (computeScaleFactors ⟨0, gh⟩ ⟨0, dh⟩) "width" (.num (.fin v)) =
      .num .nan) ∧
    (∀ gw : ℚ, gw ≠ 0 →
      (computeScaleFactors ⟨gw, gh⟩ ⟨0, dh⟩).horizontal = .fin 0) ∧
    (∀ (f : ScaleFactors) (k : String) (u : JSVal), u.isNum = false →
      scaleEntry r f k u = u) := by
  have hax : axisFor "width" = PropertyAxis.horizontal := by decide
  refine ⟨?_, ?_, ?_, ?_⟩
  · intro hdw hv hratio
    have h1 : dw ≠ 0 := ne_of_gt hdw
    have h2 : ¬ dw < 0 := not_lt.mpr (le_of_lt hdw)
    have h3 : v ≠ 0 := ne_of_gt hv
    have h4 : ¬ v < 0 := not_lt.mpr (le_of_lt hv)
    have h5 : ratio ≠ 0 := ne_of_gt hratio
    have h6 : ¬ ratio < 0 := not_lt.mpr (le_of_lt hratio)
    simp [scaleEntry, hax, scaleValue, computeScaleFactors, jsDivQ,
      roundToNearestPixel, jsMul, jsRound, jsDiv, h1, h2, h3, h4, h5, h6]
  · simp [scaleEntry, hax, scaleValue, computeScaleFactors, jsDivQ,
      roundToNearestPixel, jsMul, jsRound, jsDiv]
  · intro gw hgw
    simp [computeScaleFactors, jsDivQ, hgw]
  · intro f k u hu
    exact scaleEntry_eq_self r f k u (Or.inl hu)

theorem degenerate_inputs_no_failure_witness :
    scaleEntry (roundToNearestPixel 2)
      (computeScaleFactors ⟨0, 667⟩ ⟨320, 568⟩) "width" (.num (.fin 100)) =
      .num (.inf false) :=
  (degenerate_inputs_no_failure id 667 320 568 2 100).1 (by norm_num)
    (by norm_num) (by norm_num)

lemma roundToNearestPixel_fixed (ratio q : ℚ) (hr : ratio ≠ 0) (z : ℤ)
    (hz : q * ratio = (z : ℚ)) :
    roundToNearestPixel ratio (.fin q) = .fin q := by
  have h1 : jsMul (.fin q) (.fin ratio) = .fin (q * ratio) := rfl
  rw [roundToNearestPixel, h1, hz]
  have h2 : jsRound (.fin (z : ℚ)) = .fin (z : ℚ) := by
    simp only [jsRound, ratFloor_eq_floor]
    rw [add_comm, Int.floor_add_int]
    norm_num
  rw [h2]
  simp only [jsDiv, hr, if_false]
  rw [← hz, mul_div_cancel_right₀ q hr]

lemma scaleEntry_unit (ratio : ℚ) (hr : ratio ≠ 0) (k : String) (v : JSVal)
    (hv : ∀ n : JSNum, v = JSVal.num n →
      ∃ q : ℚ, ∃ z : ℤ, n = .fin q ∧ q * ratio = (z : ℚ)) :
    scaleEntry (roundToNearestPixel ratio) ⟨.fin 1, .fin 1, .fin 1⟩ k v = v := by
  cases v with
  | num n =>
      obtain ⟨q, z, rfl, hz⟩ := hv n rfl
      have hm : jsMul (.fin q) (.fin 1) = .fin q := by simp [jsMul]
      have hfix := roundToNearestPixel_fixed ratio q hr z hz
      cases hax : axisFor k <;>
        simp [scaleEntry, hax, scaleValue, hm, hfix]
  | str s => rfl
  | bool b => rfl
  | arr l => rfl
  | obj l => rfl

lemma list_map_id_of {α : Type} (l : List α) (f : α → α)
    (h : ∀ x ∈ l, f x = x) : l.map f = l := by
  induction l with
  | nil => rfl
  | cons a t ih =>
      simp only [List.map_cons]
      rw [h a (List.mem_cons_self a t),
        ih (fun x hx => h x (List.mem_cons_of_mem a hx))]

/-- C9: when device dimensions equal guideline dimensions, all three scale
factors equal 1 and the scaled output style equals the input style, pixel
rounding being a no-op on values already representable in device pixels. -/
theorem equal_dimensions_identity (w h ratio : ℚ) (hw : w ≠ 0) (hh : h ≠ 0)
    (hr : ratio ≠ 0) (style : StyleObject)
    (hint : ∀ p ∈ style, ∀ n : JSNum, p.2 = JSVal.num n →
      ∃ q : ℚ, ∃ z : ℤ, n = .fin q ∧ q * ratio = (z : ℚ)) :
    (computeScaleFactors ⟨w, h⟩ ⟨w, h⟩ = ⟨.fin 1, .fin 1, .fin 1⟩) ∧
    (scaleStyle (roundToNearestPixel ratio) ⟨w, h⟩ ⟨w, h⟩ style = style) := by
  have hfac : computeScaleFactors ⟨w, h⟩ ⟨w, h⟩ = ⟨.fin 1, .fin 1, .fin 1⟩ := by
    simp only [computeScaleFactors, jsDivQ, hw, hh, if_false, div_self hw,
      div_self hh]
    norm_num [jsAdd, jsDiv]
  refine ⟨hfac, ?_⟩
  unfold scaleStyle
  rw [hfac]
  refine list_map_id_of style _ (fun p hp => ?_)
  have hone := scaleEntry_unit ratio hr p.1 p.2 (fun n hn => hint p hp n hn)
  rw [hone]

theorem equal_dimensions_identity_witness :
    scaleStyle (roundToNearestPixel 2) ⟨375, 667⟩ ⟨375, 667⟩
      [("width", JSVal.num (.fin 10)), ("color", JSVal.str "red")] =
      [("width", JSVal.num (.fin 10)), ("color", JSVal.str "red")] :=
  (equal_dimensions_identity 375 667 2 (by norm_num) (by norm_num)
    (by norm_num) [("width", JSVal.num (.fin 10)), ("color", JSVal.str "red")]
    (by
      intro p hp n hn
      cases hp with
      | head =>
          injection hn with h2
          subst h2
          exact ⟨10, 20, rfl, by norm_num⟩
      | tail _ hp2 =>
          cases hp2 with
          | head => exact JSVal.noConfusion hn
          | tail _ hp3 => cases hp3)).2

/-- C4 counterexample: with guideline (375, 667), device (320, 568) and
the host pixel rounding at the iPhone SE's pixel ratio of 2,
scaleHorizontally(100) is 85.5 (the value the source documents), not 85. -/
theorem iphoneSE_scale_not_85 :
    scaleHorizontally (roundToNearestPixel 2) ⟨375, 667⟩ ⟨320, 568⟩
        (.fin 100) = .fin (171 / 2) ∧
    scaleHorizontally (roundToNearestPixel 2) ⟨375, 667⟩ ⟨320, 568⟩
        (.fin 100) ≠ .fin 85 := by
  have hval : scaleHorizontally (roundToNearestPixel 2) ⟨375, 667⟩ ⟨320, 568⟩
      (.fin 100) = .fin (171 / 2) := by
    simp only [scaleHorizontally, scaleValue, computeScaleFactors, jsDivQ,
      roundToNearestPixel, jsMul, jsRound, jsDiv, ratFloor_eq_floor]
    norm_num
  refine ⟨hval, ?_⟩
  rw [hval]
  intro hcontra
  injection hcontra with h2
  norm_num at h2

/-- C4 amended: with guideline (375, 667), device (320, 568) and the
iPhone SE's pixel ratio of 2, scaleHorizontally(100) equals 85.5 (the
nearest pixel, round(100 * 320/375 * 2) / 2); and in the style
(width 100, fontSize 18, opacity 0.5), width is scaled by the horizontal
ratio, fontSize by the average ratio (yielding 15.5), and opacity is left
untouched. -/
theorem iphoneSE_example_amended :
    (scaleHorizontally (roundToNearestPixel 2) ⟨375, 667⟩ ⟨320, 568⟩
        (.fin 100) = .fin (171 / 2)) ∧
    (scaleStyle (roundToNearestPixel 2) ⟨375, 667⟩ ⟨320, 568⟩
        [("width", JSVal.num (.fin 100)), ("fontSize", JSVal.num (.fin 18)),
         ("opacity", JSVal.num (.fin (1 / 2)))] =
      [("width", JSVal.num (scaleValue (roundToNearestPixel 2)
          (computeScaleFactors ⟨375, 667⟩ ⟨320, 568⟩).horizontal (.fin 100))),
       ("fontSize", JSVal.num (scaleValue (roundToNearestPixel 2)
          (computeScaleFactors ⟨375, 667⟩ ⟨320, 568⟩).average (.fin 18))),
       ("opacity", JSVal.num (.fin (1 / 2)))]) ∧
    (scaleValue (roundToNearestPixel 2)
        (computeScaleFactors ⟨375, 667⟩ ⟨320, 568⟩).average (.fin 18) =
      .fin (31 / 2)) := by
  have hax1 : axisFor "width" = PropertyAxis.horizontal := by decide
  have hax2 : axisFor "fontSize" = PropertyAxis.average := by decide
  have hax3 : axisFor "opacity" = PropertyAxis.unscaled := by decide
  refine ⟨?_, ?_, ?_⟩
  · simp only [scaleHorizontally, scaleValue, computeScaleFactors, jsDivQ,
      roundToNearestPixel, jsMul, jsRound, jsDiv, ratFloor_eq_floor]
    norm_num
  · simp [scaleStyle, scaleEntry, hax1, hax2, hax3]
  · simp only [scaleValue, computeScaleFactors, jsDivQ, roundToNearestPixel,
      jsAdd, jsDiv, jsMul, jsRound, ratFloor_eq_floor]
    norm_num
